import Mathlib

/-!
Shallow embedding of `src/wishful_module_gnuradio/module_gnuradio.py`
(the GNU Radio connector module: a radio-program lifecycle supervisor).

Modelling conventions:
* Python `None` for a program name is `Option.none`; a program name is an
  `Option String` because `set_active` defaults a missing `program_name`
  to `None` and uses that value as a dictionary key.
* The dictionary `gr_radio_programs_conf` is an association list keyed by
  `Option String`.
* Process handles (`subprocess.Popen` results) are `Nat` identifiers; the
  spawn of a fresh process takes the fresh identifier as a parameter.
* The two log files opened by `_exec_program` are a pair of
  closed-or-open flags (`ProcessIo`).
* The on-disk artifact store is the list of file paths currently present.
* Exceptions are `Except PyError`; every operation returns the state it
  leaves behind together with its outcome and the list of observable
  events (kills, spawns, log lines, remote calls) it produced, in order.
* External collaborators are oracles: `CompileEnv` describes how the XML
  parse and the `grcc` tool behave on the given input, `RemoteEnv`
  describes which remote `set_<k>` / `get_<k>` XML-RPC calls succeed.
-/

/-- `RadioProgramState` enum of the source (line 20). -/
inductive RadioProgramState where
  | INACTIVE
  | RUNNING
  | PAUSED
  | STOPPED
  deriving Repr, DecidableEq

/-- `RadioProgramConf` (line 26): name, args, port, code, path.
`code` is an `Option String` because `program_code` may be Python `None`. -/
structure RadioProgramConf where
  name : Option String
  args : List String
  port : Nat
  code : Option String
  path : String
  deriving Repr, DecidableEq

/-- Open/closed status of the pair of log files held in
`self.gr_process_io` (stdout and stderr; line 88). `true` = closed. -/
structure ProcessIo where
  stdout_closed : Bool
  stderr_closed : Bool
  deriving Repr, DecidableEq

/-- The Python exceptions the embedded code can raise. -/
inductive PyError where
  | keyError
  | attributeError
  | typeError
  | xmlError
  | fileNotFoundError
  deriving Repr, DecidableEq

/-- Observable events of a run, in program order. -/
inductive Event where
  | kill (p : Nat)
  | spawn (p : Nat) (argv : List String)
  | logInfo (s : String)
  | logWarn (s : String)
  | logError (s : String)
  | rpcStop
  | rpcWait
  | rpcSet (k : String) (v : Int)
  | rpcGet (k : String)
  deriving Repr, DecidableEq

/-- The mutable fields of the `GnuRadioModule` instance (lines 61-80),
plus the artifact store's file system (`files`). -/
structure GnuRadioModule where
  gr_radio_programs_conf : List (Option String × RadioProgramConf)
  gr_exec_name : Option String
  gr_state : RadioProgramState
  gr_process : Option Nat
  gr_process_io : Option ProcessIo
  gr_radio_programs_path : String
  default_socket_port : Nat
  ctrl_socket : Option Nat
  files : List String
  deriving Repr, DecidableEq

/-- Outcome of one operation: the state left behind, the returned value or
the exception that escaped, and the events produced. -/
structure Res (α : Type) where
  st : GnuRadioModule
  out : Except PyError α
  evs : List Event
  deriving Repr

deriving instance DecidableEq for Except

/-- `self.gr_radio_programs_conf[k]` as a total lookup. -/
def dictGet (d : List (Option String × RadioProgramConf)) (k : Option String) :
    Option RadioProgramConf :=
  (d.find? (fun p => p.fst == k)).map (fun p => p.snd)

/-- `del self.gr_radio_programs_conf[k]`. -/
def dictDel (d : List (Option String × RadioProgramConf)) (k : Option String) :
    List (Option String × RadioProgramConf) :=
  d.filter (fun p => p.fst != k)

/-- Add a path to the file system if absent (`open(path, "w")` creates it). -/
def addFile (fs : List String) (p : String) : List String :=
  if fs.contains p then fs else fs ++ [p]

/-- Python `s.endswith(suff)` (structural, on the character lists). -/
def pyEndsWith (s suff : String) : Bool :=
  suff.toList.isSuffixOf s.toList

/-- `os.path.splitext(p)[0]`: the path up to its last dot. -/
def splitextRoot (p : String) : String :=
  match (p.toList.reverse.findIdx? (fun c => c = Char.ofNat 46)) with
  | none => p
  | some i => String.mk (p.toList.take (p.toList.length - i - 1))

/-- The initial field values set by `__init__` (lines 55-83): no programs,
state `INACTIVE`, no process, no open streams, port 1235, no socket. -/
def initialModule : GnuRadioModule where
  gr_radio_programs_conf := []
  gr_exec_name := none
  gr_state := RadioProgramState.INACTIVE
  gr_process := none
  gr_process_io := none
  gr_radio_programs_path := "~/.wishful/radio"
  default_socket_port := 1235
  ctrl_socket := none
  files := []

/-- Embeds the Python expression `self.gr_process_io is dict` (line 138):
an identity test between the dict instance held in `gr_process_io` and the
built-in type object `dict`, which is false for every dict instance, so the
stream-closing loop below it never runs. -/
def gr_process_io_is_dict (_io : ProcessIo) : Bool := false

/-- `_exec_program` (lines 85-113). Opens the log files if not yet open,
kills and discards any previously held process, then looks the program up
and spawns it. The `try` block catches the `KeyError` of a missing
registration and a spawn failure (`spawn_ok = false`) alike: it logs, sets
`gr_process_io`, `gr_process` and `gr_exec_name` to `None`, and returns
`False`. On success the state becomes `RUNNING` and it returns `True`. -/
def _exec_program (spawn_ok : Bool) (fresh : Nat)
    (grc_radio_program_name : Option String) (program_args : List String)
    (st : GnuRadioModule) : Res Bool :=
  let st0 :=
    match st.gr_process_io with
    | none => { st with gr_process_io := some (ProcessIo.mk false false) }
    | some _ => st
  let killEvs :=
    match st0.gr_process with
    | some p => [Event.kill p]
    | none => []
  let st1 :=
    match st0.gr_process with
    | some _ => { st0 with gr_process := none }
    | none => st0
  match dictGet st1.gr_radio_programs_conf grc_radio_program_name with
  | none =>
      Res.mk
        { st1 with gr_process_io := none, gr_process := none, gr_exec_name := none }
        (Except.ok false)
        (killEvs ++ [Event.logError ("Failed to start GNURadio program")])
  | some the_program =>
      let st2 := { st1 with gr_exec_name := grc_radio_program_name }
      let argv := ["env", "python2", the_program.path] ++ program_args
      if spawn_ok then
        Res.mk
          { st2 with gr_process := some fresh, gr_state := RadioProgramState.RUNNING }
          (Except.ok true)
          (killEvs ++ [Event.logInfo ("Starting GNURADIO program"),
            Event.spawn fresh argv,
            Event.logInfo ("GNURadio process started succesfully")])
      else
        Res.mk
          { st2 with gr_process_io := none, gr_process := none, gr_exec_name := none }
          (Except.ok false)
          (killEvs ++ [Event.logInfo ("Starting GNURADIO program"),
            Event.logError ("Failed to start GNURadio program")])

/-- `_remove_program` (lines 115-132). When the name is not registered it
logs, but does not return: the very next line `the_program =
self.gr_radio_programs_conf[grc_radio_program_name]` then raises
`KeyError`. Otherwise it deletes the artifact file, the generated
companion `.py` when the stored path ends in `grc`, and the registration. -/
def _remove_program (grc_radio_program_name : Option String)
    (st : GnuRadioModule) : Res Unit :=
  match dictGet st.gr_radio_programs_conf grc_radio_program_name with
  | none =>
      Res.mk st (Except.error PyError.keyError)
        [Event.logInfo ("Could not remove program: not registered")]
  | some the_program =>
      let st1 :=
        if st.files.contains the_program.path then
          { st with files := st.files.erase the_program.path }
        else st
      let st2 :=
        if pyEndsWith the_program.path ("grc") then
          let pyfile := splitextRoot the_program.path ++ ".py"
          if st1.files.contains pyfile then
            { st1 with files := st1.files.erase pyfile }
          else st1
        else st1
      Res.mk
        { st2 with gr_radio_programs_conf :=
            dictDel st2.gr_radio_programs_conf grc_radio_program_name }
        (Except.ok ()) []

/-- `_close_gr_process` (lines 134-144). Kills the held process (without
discarding the handle), then runs the stream-closing block, whose guard
`self.gr_process_io is dict` is always false (see
`gr_process_io_is_dict`), and finally sets `ctrl_socket` to `None`. -/
def _close_gr_process (st : GnuRadioModule) : Res Unit :=
  let killEvs :=
    match st.gr_process with
    | some p => [Event.kill p]
    | none => []
  let st1 :=
    match st.gr_process_io with
    | some io =>
        if gr_process_io_is_dict io then
          { st with gr_process_io := some (ProcessIo.mk true true) }
        else st
    | none => st
  Res.mk { st1 with ctrl_socket := none } (Except.ok ()) killEvs

/-- How the external XML parse and the `grcc` toolchain behave on the
given activation request: `parses` is whether `etree.fromstring` and the
subsequent xpath indexing succeed, `grcc_output` is the text of the
generated `.py` file when `grcc` produced one (`none` when no output file
exists, in which case the `open` of line 170 raises). -/
structure CompileEnv where
  parses : Bool
  grcc_output : Option String
  deriving Repr, DecidableEq

/-- `_convert_grc_to_python` (lines 146-174). Only the
`subprocess.check_call` of `grcc` sits in a `try` (its failure is merely
logged); everything else raises out of the function: `bytearray(code)` on
a `None` code (`TypeError`), the XML parse and xpath indexing on malformed
input, `grc_radio_program_name + ".py"` on a `None` name (`TypeError`),
and the `open` of the generated file when `grcc` left no output
(`FileNotFoundError`). On success it returns the generated python text
(the file at the toolchain's output location is read and then removed). -/
def _convert_grc_to_python (cenv : CompileEnv)
    (grc_radio_program_name : Option String)
    (grc_radio_program_code : Option String)
    (st : GnuRadioModule) : Res String :=
  match grc_radio_program_code with
  | none => Res.mk st (Except.error PyError.typeError) []
  | some _ =>
      if cenv.parses then
        match grc_radio_program_name with
        | none => Res.mk st (Except.error PyError.typeError) []
        | some _ =>
            match cenv.grcc_output with
            | none =>
                Res.mk st (Except.error PyError.fileNotFoundError)
                  [Event.logInfo ("grcc"),
                   Event.logInfo ("could not execute grcc compiler")]
            | some py =>
                Res.mk st (Except.ok py) [Event.logInfo ("grcc")]
      else
        Res.mk st (Except.error PyError.xmlError) []

/-- `get_running_radio_program` (lines 177-182): the exec name when the
state is `RUNNING`, otherwise `None`. Pure, mutates nothing. -/
def get_running_radio_program (st : GnuRadioModule) : Option String :=
  if st.gr_state = RadioProgramState.RUNNING then st.gr_exec_name else none

/-- `_init_proxy` (lines 327-339). A no-op when a socket is already held;
otherwise looks the program's port up (the `KeyError` of a missing
registration is caught by the `except` and only logged) and creates the
XML-RPC proxy (`xmlrpc.client.ServerProxy` construction itself cannot
fail: it does not connect). -/
def _init_proxy (program_name : Option String) (st : GnuRadioModule) : Res Unit :=
  match st.ctrl_socket with
  | some _ =>
      Res.mk st (Except.ok ()) [Event.logInfo ("Already connected to a GNURadio process")]
  | none =>
      match dictGet st.gr_radio_programs_conf program_name with
      | none =>
          Res.mk st (Except.ok ()) [Event.logError ("Error connecting to GNURadio process")]
      | some conf =>
          Res.mk { st with ctrl_socket := some conf.port } (Except.ok ())
            [Event.logInfo ("Connected to GNURadio process")]

/-- `_add_program_to_repo` (lines 276-291). Joins the repository path with
`name + ".py"` (a `None` name raises `TypeError`), opens the file for
writing (creating it), writes the code (a `None` code raises `TypeError`
after the file was created) and returns the path.
`_build_radio_program_dict` (line 293) returns on its first line, so the
call to it is a no-op. -/
def _add_program_to_repo (grc_radio_program_name : Option String)
    (grc_radio_program_code : Option String) (st : GnuRadioModule) : Res String :=
  match grc_radio_program_name with
  | none => Res.mk st (Except.error PyError.typeError) []
  | some n =>
      let path := st.gr_radio_programs_path ++ "/" ++ n ++ ".py"
      let st1 := { st with files := addFile st.files path }
      match grc_radio_program_code with
      | none => Res.mk st1 (Except.error PyError.typeError) []
      | some _ =>
          Res.mk st1 (Except.ok path)
            [Event.logInfo ("Add radio program to local repository")]

/-- The argument dictionary of `set_active` (lines 187-191): `none` in a
field is an absent key (for `program_name` and `program_code` an explicit
Python `None` value is identical to an absent key, since `None` is also
the default). -/
structure ActivateArgs where
  program_name : Option String := none
  program_code : Option String := none
  program_args : Option (List String) := none
  program_type : Option String := none
  program_port : Option Nat := none
  deriving Repr, DecidableEq

/-- Lines 203-210 of `set_active`: if the name is not registered,
serialize the program via `_add_program_to_repo` (whose exception, if any,
propagates) and create its `RadioProgramConf`; then launch it through
`_exec_program`. -/
def activateRegisterAndExec (spawn_ok : Bool) (fresh : Nat)
    (program_name : Option String) (program_code : Option String)
    (program_args : List String) (program_port : Nat)
    (evs0 : List Event) (st : GnuRadioModule) : Res (Option Bool) :=
  if dictGet st.gr_radio_programs_conf program_name = none then
    let ra := _add_program_to_repo program_name program_code st
    match ra.out with
    | Except.error e => Res.mk ra.st (Except.error e) (evs0 ++ ra.evs)
    | Except.ok path =>
        let conf := RadioProgramConf.mk program_name program_args program_port
          program_code path
        let st2 := { ra.st with gr_radio_programs_conf :=
            ra.st.gr_radio_programs_conf ++ [(program_name, conf)] }
        let re := _exec_program spawn_ok fresh program_name program_args st2
        Res.mk re.st (re.out.map (fun b => some b)) (evs0 ++ ra.evs ++ re.evs)
  else
    let re := _exec_program spawn_ok fresh program_name program_args st
    Res.mk re.st (re.out.map (fun b => some b)) (evs0 ++ re.evs)

/-- `set_active` (lines 184-221). First substitutes defaults for absent
argument keys (`program_name` → `None`, `program_args` → `[""]`,
`program_type` → `"grc"`, `program_port` → `self.default_socket_port`),
then dispatches on the state: from `INACTIVE` it compiles a `"grc"`
program (an exception from `_convert_grc_to_python` propagates), rejects
an unknown type with `return` (`None`), registers the program if new and
launches it, returning the boolean of `_exec_program`; from `PAUSED` with
the active name it re-creates the proxy and sets the state to `RUNNING`
(returning `None`); in every other case it only logs a warning. -/
def set_active (cenv : CompileEnv) (spawn_ok : Bool) (fresh : Nat)
    (args : ActivateArgs) (st : GnuRadioModule) : Res (Option Bool) :=
  let program_name := args.program_name
  let program_code := args.program_code
  let program_args := args.program_args.getD [""]
  let program_type := args.program_type.getD "grc"
  let program_port := args.program_port.getD st.default_socket_port
  if st.gr_state = RadioProgramState.INACTIVE then
    let evs0 := [Event.logInfo ("Start new radio program")]
    if program_type = "grc" then
      let rc := _convert_grc_to_python cenv program_name program_code st
      match rc.out with
      | Except.error e => Res.mk rc.st (Except.error e) (evs0 ++ rc.evs)
      | Except.ok py =>
          activateRegisterAndExec spawn_ok fresh program_name (some py)
            program_args program_port (evs0 ++ rc.evs) rc.st
    else if program_type = "py" then
      activateRegisterAndExec spawn_ok fresh program_name program_code
        program_args program_port evs0 st
    else
      Res.mk st (Except.ok none)
        (evs0 ++ [Event.logError ("program_type must be either grc or py")])
  else if st.gr_state = RadioProgramState.PAUSED ∧ st.gr_exec_name = program_name then
    let r := _init_proxy st.gr_exec_name st
    Res.mk { r.st with gr_state := RadioProgramState.RUNNING } (Except.ok none)
      ([Event.logInfo ("Wakeup radio program")] ++ r.evs)
  else
    Res.mk st (Except.ok none)
      [Event.logWarn ("Please deactive old radio program before activating a new one.")]

/-- `set_inactive` (lines 224-243). A name other than the active one is an
early logged return. From `RUNNING` or `PAUSED`: with `pause`, it calls
`self.ctrl_socket.stop()` and `.wait()` (an `AttributeError` when
`ctrl_socket` is `None`) and sets the state to `PAUSED`; without `pause`,
it sets the state to `INACTIVE`, runs `_close_gr_process` and
`_remove_program` (whose exception, if any, propagates). From any other
state it only warns. -/
def set_inactive (radio_program_name : Option String) (pause : Bool)
    (st : GnuRadioModule) : Res Unit :=
  if radio_program_name ≠ st.gr_exec_name then
    Res.mk st (Except.ok ()) [Event.logInfo ("Program is not running")]
  else if st.gr_state = RadioProgramState.RUNNING ∨
      st.gr_state = RadioProgramState.PAUSED then
    if pause then
      match st.ctrl_socket with
      | none =>
          Res.mk st (Except.error PyError.attributeError)
            [Event.logInfo ("Pausing radio program")]
      | some _ =>
          Res.mk { st with gr_state := RadioProgramState.PAUSED } (Except.ok ())
            [Event.logInfo ("Pausing radio program"), Event.rpcStop, Event.rpcWait]
    else
      let st1 := { st with gr_state := RadioProgramState.INACTIVE }
      let r1 := _close_gr_process st1
      let r2 := _remove_program radio_program_name r1.st
      Res.mk r2.st r2.out
        ([Event.logInfo ("Stopping radio program")] ++ r1.evs ++ r2.evs)
  else
    Res.mk st (Except.ok ())
      [Event.logWarn ("no running or paused radio program; ignore command")]

/-- Which remote XML-RPC calls succeed: `set_ok k` is whether
`ctrl_socket.set_<k>(v)` succeeds, `get_val k` is the value returned by
`ctrl_socket.get_<k>()` when that call succeeds. -/
structure RemoteEnv where
  set_ok : String → Bool
  get_val : String → Option Int

/-- The per-key loop of `gnuradio_set_vars` (lines 249-253): each key is
attempted inside its own `try`; with no socket (`getattr(None, ...)`
raises `AttributeError`) or a remotely failing key the exception is caught
and logged, and the loop continues with the remaining keys. -/
def setVarsLoop (renv : RemoteEnv) (sock : Option Nat) :
    List (String × Int) → List Event
  | [] => []
  | (k, v) :: rest =>
      (if sock.isSome && renv.set_ok k then [Event.rpcSet k v]
       else [Event.logError ("Unknown variable")]) ++ setVarsLoop renv sock rest

/-- `gnuradio_set_vars` (lines 245-255): from `RUNNING` or `PAUSED`,
ensure the proxy exists and run the per-key loop; otherwise warn. -/
def gnuradio_set_vars (renv : RemoteEnv) (param_key_values_dict : List (String × Int))
    (st : GnuRadioModule) : Res Unit :=
  if st.gr_state = RadioProgramState.RUNNING ∨
      st.gr_state = RadioProgramState.PAUSED then
    let r := _init_proxy st.gr_exec_name st
    Res.mk r.st (Except.ok ())
      (r.evs ++ setVarsLoop renv r.st.ctrl_socket param_key_values_dict)
  else
    Res.mk st (Except.ok ())
      [Event.logWarn ("no running or paused radio program; ignore command")]

/-- `rv[k] = v` on the association list `rv` (dict assignment: replace in
place when the key is present, append otherwise). -/
def dictSet (rv : List (String × Int)) (k : String) (v : Int) : List (String × Int) :=
  match rv with
  | [] => [(k, v)]
  | (ks, vs) :: rest =>
      if ks = k then (ks, v) :: rest else (ks, vs) :: dictSet rest k v

/-- The per-key loop of `gnuradio_get_vars` (lines 262-268): each key is
probed inside its own `try`; a missing socket or a remotely failing key is
caught and logged, every succeeding key's value is stored in `rv`. -/
def getVarsLoop (renv : RemoteEnv) (sock : Option Nat) :
    List String → List (String × Int) → List (String × Int) × List Event
  | [], rv => (rv, [])
  | k :: rest, rv =>
      if sock.isSome && (renv.get_val k).isSome then
        let r := getVarsLoop renv sock rest (dictSet rv k ((renv.get_val k).getD 0))
        (r.fst, [Event.logInfo ("Probing for variable"), Event.rpcGet k] ++ r.snd)
      else
        let r := getVarsLoop renv sock rest rv
        (r.fst, [Event.logInfo ("Probing for variable"),
          Event.logError ("Unknown variable")] ++ r.snd)

/-- `gnuradio_get_vars` (lines 257-274): from `RUNNING` or `PAUSED`,
ensure the proxy exists, run the per-key loop and return the collected
mapping; otherwise warn and return `None`. -/
def gnuradio_get_vars (renv : RemoteEnv) (param_key_list : List String)
    (st : GnuRadioModule) : Res (Option (List (String × Int))) :=
  if st.gr_state = RadioProgramState.RUNNING ∨
      st.gr_state = RadioProgramState.PAUSED then
    let r := _init_proxy st.gr_exec_name st
    let g := getVarsLoop renv r.st.ctrl_socket param_key_list []
    Res.mk r.st (Except.ok (some g.fst))
      (r.evs ++ g.snd ++ [Event.logInfo ("Returning")])
  else
    Res.mk st (Except.ok none)
      [Event.logWarn ("no running or paused radio program; ignore command")]

/-- The states reachable from a fresh module instance by any sequence of
public operations (with arbitrary collaborator behaviour and arguments). -/
inductive Reachable : GnuRadioModule → Prop where
  | init : Reachable initialModule
  | activate {st : GnuRadioModule} (cenv : CompileEnv) (spawn_ok : Bool)
      (fresh : Nat) (args : ActivateArgs) :
      Reachable st → Reachable (set_active cenv spawn_ok fresh args st).st
  | deactivate {st : GnuRadioModule} (name : Option String) (pause : Bool) :
      Reachable st → Reachable (set_inactive name pause st).st
  | setVars {st : GnuRadioModule} (renv : RemoteEnv) (ps : List (String × Int)) :
      Reachable st → Reachable (gnuradio_set_vars renv ps st).st
  | getVars {st : GnuRadioModule} (renv : RemoteEnv) (ks : List String) :
      Reachable st → Reachable (gnuradio_get_vars renv ks st).st

/-- `rv[k]` on the association list built by `gnuradio_get_vars`. -/
def lookupVar (m : List (String × Int)) (k : String) : Option Int :=
  (m.find? (fun p => p.fst == k)).map (fun p => p.snd)

/-- A compile environment on which the conversion fully succeeds. -/
def cenvGood : CompileEnv := CompileEnv.mk true (some "PY")

/-- A compile environment whose input does not parse. -/
def cenvBad : CompileEnv := CompileEnv.mk false none

/-- An activation request for program `x` leaving `program_args`,
`program_type` and `program_port` absent. -/
def argsX : ActivateArgs :=
  { program_name := some "x", program_code := some "<xml>" }

/-- The session after activating `x` from a fresh module: `RUNNING`,
process handle `1`, no control socket yet. -/
def runX : GnuRadioModule := (set_active cenvGood true 1 argsX initialModule).st

/-- `runX` with a control socket, as left by any parameter operation. -/
def runXSock : GnuRadioModule := { runX with ctrl_socket := some 1235 }

/-- A remote endpoint knowing exactly the parameter `freq`. -/
def renvFreq : RemoteEnv :=
  RemoteEnv.mk (fun k => k == "freq") (fun k => if k == "freq" then some 42 else none)

/-- The session after activating `x` and then setting `freq`: reachable
and holding a control socket. -/
def runXVars : GnuRadioModule := (gnuradio_set_vars renvFreq [("freq", 1)] runX).st

/-- A registration stored under the Python-`None` key. -/
def confNone : RadioProgramConf :=
  RadioProgramConf.mk none [""] 1235 (some "c") "~/.wishful/radio/n.py"

/-- A module with a program registered under the `None` name. -/
def stPreNone : GnuRadioModule :=
  { initialModule with gr_radio_programs_conf := [(none, confNone)] }

/-- An activation request with `program_name` absent and an explicit
`py` type. -/
def argsNoName : ActivateArgs :=
  { program_code := some "c", program_type := some "py" }

/-- A registration for program `y` with its artifact on disk. -/
def confY : RadioProgramConf :=
  RadioProgramConf.mk (some "y") [""] 1235 (some "c") "~/.wishful/radio/y.py"

/-- A module with `y` registered and its artifact present. -/
def stY : GnuRadioModule :=
  { initialModule with
    gr_radio_programs_conf := [((some "y"), confY)]
    files := ["~/.wishful/radio/y.py"] }

/-- C1 (code_bug evidence): removing an unregistered name logs but then
raises `KeyError` (the lookup on line 120 runs despite the failed
membership test on line 117), and so does removing a name a second time
after a successful removal. -/
theorem remove_program_unregistered_raises :
    (_remove_program (some "z") initialModule).out = Except.error PyError.keyError ∧
    Event.logInfo ("Could not remove program: not registered") ∈
      (_remove_program (some "z") initialModule).evs ∧
    (_remove_program (some "y") stY).out = Except.ok () ∧
    (_remove_program (some "y") (_remove_program (some "y") stY).st).out =
      Except.error PyError.keyError := by
  decide

/-- C6: `get_running_radio_program` returns the active program name
exactly when the state is `RUNNING`; from any other state, in particular
`PAUSED`, it returns `None`. -/
theorem get_running_program_iff_running (st : GnuRadioModule) :
    (st.gr_state = RadioProgramState.RUNNING →
      get_running_radio_program st = st.gr_exec_name) ∧
    (st.gr_state ≠ RadioProgramState.RUNNING →
      get_running_radio_program st = none) ∧
    (st.gr_state = RadioProgramState.PAUSED →
      get_running_radio_program st = none) := by
  refine ⟨fun h => ?_, fun h => ?_, fun h => ?_⟩
  · simp [get_running_radio_program, h]
  · simp [get_running_radio_program, h]
  · simp [get_running_radio_program, h]

/-- Witness for `get_running_program_iff_running` at a paused session. -/
theorem get_running_program_iff_running_witness :
    get_running_radio_program { runX with gr_state := RadioProgramState.PAUSED } = none :=
  (get_running_program_iff_running
    { runX with gr_state := RadioProgramState.PAUSED }).2.2 rfl

/-- C10: with optional activation arguments absent, `set_active`
substitutes the fixed defaults: the type defaults to `grc` (the compile
path runs and the stored code is the compiler's output), the port defaults
to 1235, the argument list defaults to `[""]` and that empty string is
passed on the spawned process's command line; and an absent `program_name`
defaults to `None`, which is used as the registration key and becomes the
active name. -/
theorem set_active_defaults :
    (set_active cenvGood true 5 argsX initialModule).out = Except.ok (some true) ∧
    dictGet (set_active cenvGood true 5 argsX initialModule).st.gr_radio_programs_conf
        (some "x") =
      some (RadioProgramConf.mk (some "x") [""] 1235 (some "PY") "~/.wishful/radio/x.py") ∧
    Event.spawn 5 ["env", "python2", "~/.wishful/radio/x.py", ""] ∈
      (set_active cenvGood true 5 argsX initialModule).evs ∧
    (set_active cenvGood true 7 argsNoName stPreNone).out = Except.ok (some true) ∧
    (set_active cenvGood true 7 argsNoName stPreNone).st.gr_exec_name = none ∧
    (set_active cenvGood true 7 argsNoName stPreNone).st.gr_state =
      RadioProgramState.RUNNING := by
  decide

/-- C2 (counterexample): activating a compiled-flowgraph program whose
source does not parse raises the XML error out of `set_active` - the
failure is not caught and converted into a reported compile failure. -/
theorem activate_malformed_grc_raises :
    (set_active cenvBad true 1 argsX initialModule).out =
      Except.error PyError.xmlError ∧
    (set_active cenvBad true 1 argsX initialModule).st = initialModule := by
  decide

/-- C3 (counterexample): after Activate(x) followed by a non-pause
Deactivate(x), the state is `INACTIVE` but `gr_process` still holds the
killed process's handle - `_close_gr_process` kills without discarding,
so the invariant "processHandle is non-null only while state is Running
or Paused" fails on a reachable state. -/
theorem deactivate_keeps_process_handle :
    (set_inactive (some "x") false runX).st.gr_state =
      RadioProgramState.INACTIVE ∧
    (set_inactive (some "x") false runX).st.gr_process = some 1 := by
  decide

/-- C4 (code_bug evidence): a non-pause Deactivate of the running grc
program sets the state to `INACTIVE`, kills the child process, tears down
the control channel and removes both the registration and the on-disk
artifact - but the two output stream files stay open, because the guard
`self.gr_process_io is dict` on line 138 is always false. -/
theorem deactivate_stop_effects :
    (set_inactive (some "x") false runX).st.gr_state =
      RadioProgramState.INACTIVE ∧
    Event.kill 1 ∈ (set_inactive (some "x") false runX).evs ∧
    (set_inactive (some "x") false runX).st.ctrl_socket = none ∧
    dictGet (set_inactive (some "x") false runX).st.gr_radio_programs_conf
      (some "x") = none ∧
    (set_inactive (some "x") false runX).st.files = [] ∧
    get_running_radio_program (set_inactive (some "x") false runX).st = none ∧
    (set_inactive (some "x") false runX).st.gr_process_io =
      some (ProcessIo.mk false false) := by
  decide

/-- C5 (counterexample): immediately after a successful activation the
control socket is still `None`, so Deactivate(x, pause=true) raises
`AttributeError` from `self.ctrl_socket.stop()` instead of issuing the
remote stop and wait calls, and the state never reaches `PAUSED`. -/
theorem pause_without_channel_raises :
    (set_inactive (some "x") true runX).out =
      Except.error PyError.attributeError ∧
    (set_inactive (some "x") true runX).st.gr_state =
      RadioProgramState.RUNNING ∧
    Event.rpcStop ∉ (set_inactive (some "x") true runX).evs := by
  decide

/-- Helper: `_convert_grc_to_python` never mutates the module state. -/
theorem convert_st_eq (cenv : CompileEnv) (n c : Option String)
    (st : GnuRadioModule) : (_convert_grc_to_python cenv n c st).st = st := by
  rcases c with _ | c <;> rcases n with _ | n <;>
    simp only [_convert_grc_to_python] <;>
    cases hp : cenv.parses <;>
    rcases ho : cenv.grcc_output with _ | o <;> simp [hp, ho]

/-- Helper: whenever the code is `None`, the input does not parse, the
name is `None`, or `grcc` left no output file, the conversion raises. -/
theorem convert_fails (cenv : CompileEnv) (n c : Option String)
    (st : GnuRadioModule)
    (h : c = none ∨ cenv.parses = false ∨ n = none ∨ cenv.grcc_output = none) :
    ∃ e, (_convert_grc_to_python cenv n c st).out = Except.error e := by
  rcases c with _ | c
  · exact ⟨PyError.typeError, rfl⟩
  · cases hp : cenv.parses
    · simp [_convert_grc_to_python, hp]
    · rcases n with _ | n
      · simp [_convert_grc_to_python, hp]
      · rcases ho : cenv.grcc_output with _ | o
        · simp [_convert_grc_to_python, hp, ho]
        · simp_all

/-- Helper: the conversion produces no spawn event. -/
theorem convert_no_spawn (cenv : CompileEnv) (n c : Option String)
    (st : GnuRadioModule) (q : Nat) (a : List String) :
    Event.spawn q a ∉ (_convert_grc_to_python cenv n c st).evs := by
  rcases c with _ | c <;> rcases n with _ | n <;>
    simp only [_convert_grc_to_python] <;>
    cases hp : cenv.parses <;>
    rcases ho : cenv.grcc_output with _ | o <;> simp [hp, ho]

/-- C2 (amended): when the compilation of a grc program fails - code or
name `None`, malformed XML, or no `grcc` output file - the exception
propagates out of `set_active` (it is not converted into a reported
compile failure); the activation is aborted before any state change, so
the session is left exactly as it was (in particular `Inactive`), and no
process is spawned. -/
theorem activate_compile_failure_propagates (st : GnuRadioModule)
    (cenv : CompileEnv) (spawn_ok : Bool) (fresh : Nat) (args : ActivateArgs)
    (hst : st.gr_state = RadioProgramState.INACTIVE)
    (hty : args.program_type.getD "grc" = "grc")
    (hfail : args.program_code = none ∨ cenv.parses = false ∨
      args.program_name = none ∨ cenv.grcc_output = none) :
    (∃ e, (set_active cenv spawn_ok fresh args st).out = Except.error e) ∧
    (set_active cenv spawn_ok fresh args st).st = st ∧
    (∀ q a, Event.spawn q a ∉ (set_active cenv spawn_ok fresh args st).evs) := by
  obtain ⟨e, he⟩ := convert_fails cenv args.program_name args.program_code st hfail
  simp only [set_active, hst, hty, if_pos rfl, reduceIte, he, convert_st_eq]
  refine ⟨⟨e, rfl⟩, trivial, fun q a => ?_⟩
  simp [convert_no_spawn]

/-- Witness for `activate_compile_failure_propagates` on a non-parsing
source from a fresh module. -/
theorem activate_compile_failure_propagates_witness :
    (set_active cenvBad true 1 argsX initialModule).st = initialModule :=
  (activate_compile_failure_propagates initialModule cenvBad true 1 argsX rfl
    rfl (Or.inr (Or.inl rfl))).2.1

/-- C9: `_exec_program` invoked while a previous process handle is held
kills that handle exactly once, as its very first action (every spawn
comes later), discards it, and afterwards holds either no process or only
the freshly spawned one. -/
theorem exec_program_kills_previous_once (st : GnuRadioModule) (p : Nat)
    (spawn_ok : Bool) (fresh : Nat) (name : Option String)
    (pargs : List String) (h : st.gr_process = some p) :
    ((_exec_program spawn_ok fresh name pargs st).st.gr_process = none ∨
      (_exec_program spawn_ok fresh name pargs st).st.gr_process = some fresh) ∧
    (_exec_program spawn_ok fresh name pargs st).evs.head? =
      some (Event.kill p) ∧
    ((_exec_program spawn_ok fresh name pargs st).evs.tail.countP
      (fun e => match e with | Event.kill _ => true | _ => false)) = 0 := by
  rcases hio : st.gr_process_io with _ | io <;>
    simp only [_exec_program, hio, h] <;>
    rcases hd : dictGet _ name with _ | c <;>
    cases spawn_ok <;>
    simp [hd]

/-- Witness for `exec_program_kills_previous_once`: restarting over the
running session `runX` kills handle 1 first and then holds handle 2. -/
theorem exec_program_kills_previous_once_witness :
    ((_exec_program true 2 (some "x") [""] runX).st.gr_process = none ∨
      (_exec_program true 2 (some "x") [""] runX).st.gr_process = some 2) ∧
    (_exec_program true 2 (some "x") [""] runX).evs.head? =
      some (Event.kill 1) := by
  have h := exec_program_kills_previous_once runX 1 true 2 (some "x") [""]
    (by decide)
  exact ⟨h.1, h.2.1⟩

/-- C5 (amended): provided a control channel exists when the pause is
requested (`ctrl_socket.stop()` needs one; any parameter operation
creates it), Activate(A); Deactivate(A, pause=true); Activate(A) goes
through `PAUSED` issuing the remote stop and wait calls, and ends with
state `RUNNING`, the same active name and the same process handle; the
whole round trip neither spawns nor kills any process. -/
theorem pause_resume_roundtrip (st : GnuRadioModule) (sp : Nat)
    (cenv : CompileEnv) (spawn_ok : Bool) (fresh : Nat) (args : ActivateArgs)
    (hrun : st.gr_state = RadioProgramState.RUNNING)
    (hsock : st.ctrl_socket = some sp)
    (hname : args.program_name = st.gr_exec_name) :
    (set_inactive st.gr_exec_name true st).st.gr_state =
        RadioProgramState.PAUSED ∧
    Event.rpcStop ∈ (set_inactive st.gr_exec_name true st).evs ∧
    Event.rpcWait ∈ (set_inactive st.gr_exec_name true st).evs ∧
    (set_active cenv spawn_ok fresh args
        (set_inactive st.gr_exec_name true st).st).st.gr_state =
      RadioProgramState.RUNNING ∧
    (set_active cenv spawn_ok fresh args
        (set_inactive st.gr_exec_name true st).st).st.gr_exec_name =
      st.gr_exec_name ∧
    (set_active cenv spawn_ok fresh args
        (set_inactive st.gr_exec_name true st).st).st.gr_process =
      st.gr_process ∧
    (∀ q a, Event.spawn q a ∉ (set_inactive st.gr_exec_name true st).evs ∧
      Event.spawn q a ∉ (set_active cenv spawn_ok fresh args
        (set_inactive st.gr_exec_name true st).st).evs) ∧
    (∀ q, Event.kill q ∉ (set_inactive st.gr_exec_name true st).evs ∧
      Event.kill q ∉ (set_active cenv spawn_ok fresh args
        (set_inactive st.gr_exec_name true st).st).evs) := by
  have h1 : set_inactive st.gr_exec_name true st =
      Res.mk { st with gr_state := RadioProgramState.PAUSED } (Except.ok ())
        [Event.logInfo ("Pausing radio program"), Event.rpcStop,
          Event.rpcWait] := by
    simp [set_inactive, hrun, hsock]
  rw [h1]
  have h2 : set_active cenv spawn_ok fresh args
      { st with gr_state := RadioProgramState.PAUSED } =
      Res.mk { st with gr_state := RadioProgramState.RUNNING } (Except.ok none)
        ([Event.logInfo ("Wakeup radio program")] ++
          [Event.logInfo ("Already connected to a GNURadio process")]) := by
    simp [set_active, hname, _init_proxy, hsock]
  rw [h2]
  simp

/-- Witness for `pause_resume_roundtrip` over the running session with a
control socket: the round trip ends `RUNNING` with name `x` and the
original process handle. -/
theorem pause_resume_roundtrip_witness :
    (set_active cenvGood true 2 argsX
        (set_inactive runXSock.gr_exec_name true runXSock).st).st.gr_state =
      RadioProgramState.RUNNING ∧
    (set_active cenvGood true 2 argsX
        (set_inactive runXSock.gr_exec_name true runXSock).st).st.gr_exec_name =
      runXSock.gr_exec_name ∧
    (set_active cenvGood true 2 argsX
        (set_inactive runXSock.gr_exec_name true runXSock).st).st.gr_process =
      runXSock.gr_process := by
  have h := pause_resume_roundtrip runXSock 1235 cenvGood true 2 argsX
    (by decide) (by decide) (by decide)
  exact ⟨h.2.2.2.1, h.2.2.2.2.1, h.2.2.2.2.2.1⟩

/-- C7: every operation requested from a state that forbids it is a
logged no-op: Activate while `RUNNING`, Activate while `PAUSED` under a
different name, Deactivate of a non-active name, Deactivate from
`INACTIVE`, and parameter set/get from `INACTIVE` all leave the session
untouched, log, and raise nothing. -/
theorem state_violation_noop (st : GnuRadioModule) (cenv : CompileEnv)
    (spawn_ok : Bool) (fresh : Nat) (args : ActivateArgs)
    (name : Option String) (pause : Bool) (renv : RemoteEnv)
    (params : List (String × Int)) (keys : List String) :
    (st.gr_state = RadioProgramState.RUNNING →
      set_active cenv spawn_ok fresh args st =
        Res.mk st (Except.ok none)
          [Event.logWarn ("Please deactive old radio program before activating a new one.")]) ∧
    (st.gr_state = RadioProgramState.PAUSED →
      st.gr_exec_name ≠ args.program_name →
      set_active cenv spawn_ok fresh args st =
        Res.mk st (Except.ok none)
          [Event.logWarn ("Please deactive old radio program before activating a new one.")]) ∧
    (name ≠ st.gr_exec_name →
      set_inactive name pause st =
        Res.mk st (Except.ok ()) [Event.logInfo ("Program is not running")]) ∧
    (st.gr_state = RadioProgramState.INACTIVE →
      (set_inactive name pause st).st = st ∧
      (set_inactive name pause st).out = Except.ok () ∧
      (set_inactive name pause st).evs ≠ []) ∧
    (st.gr_state = RadioProgramState.INACTIVE →
      gnuradio_set_vars renv params st =
        Res.mk st (Except.ok ())
          [Event.logWarn ("no running or paused radio program; ignore command")]) ∧
    (st.gr_state = RadioProgramState.INACTIVE →
      gnuradio_get_vars renv keys st =
        Res.mk st (Except.ok none)
          [Event.logWarn ("no running or paused radio program; ignore command")]) := by
  refine ⟨fun h => ?_, fun h hne => ?_, fun hne => ?_, fun h => ?_, fun h => ?_,
    fun h => ?_⟩
  · simp [set_active, h]
  · simp [set_active, h]
    exact fun hc => absurd hc hne
  · simp [set_inactive, hne]
  · by_cases hn : name = st.gr_exec_name
    · simp [set_inactive, hn, h]
    · simp [set_inactive, hn]
  · simp [gnuradio_set_vars, h]
  · simp [gnuradio_get_vars, h]

/-- Witness for `state_violation_noop`: activating while `runX` is
running, and deactivating a foreign name, are both exact no-ops. -/
theorem state_violation_noop_witness :
    set_active cenvGood true 9 argsNoName runX =
      Res.mk runX (Except.ok none)
        [Event.logWarn ("Please deactive old radio program before activating a new one.")] ∧
    set_inactive (some "q") false runX =
      Res.mk runX (Except.ok ()) [Event.logInfo ("Program is not running")] := by
  have h := state_violation_noop runX cenvGood true 9 argsNoName (some "q")
    false renvFreq [] []
  exact ⟨h.1 (by decide), h.2.2.1 (by decide)⟩

/-- Helper: `_exec_program` never touches the control socket. -/
theorem exec_sock (spawn_ok : Bool) (fresh : Nat) (n : Option String)
    (a : List String) (st : GnuRadioModule) :
    (_exec_program spawn_ok fresh n a st).st.ctrl_socket = st.ctrl_socket := by
  rcases hio : st.gr_process_io with _ | io <;>
    rcases hp : st.gr_process with _ | p <;>
    simp only [_exec_program, hio, hp] <;>
    rcases hd : dictGet _ n with _ | c <;>
    cases spawn_ok <;> simp [hd]

/-- Helper: `_add_program_to_repo` never touches the control socket. -/
theorem add_repo_sock (n c : Option String) (st : GnuRadioModule) :
    (_add_program_to_repo n c st).st.ctrl_socket = st.ctrl_socket := by
  rcases n with _ | n <;> rcases c with _ | c <;> simp [_add_program_to_repo]

/-- Helper: registration plus launch never touches the control socket. -/
theorem regexec_sock (spawn_ok : Bool) (fresh : Nat) (n c : Option String)
    (a : List String) (port : Nat) (evs0 : List Event) (st : GnuRadioModule) :
    (activateRegisterAndExec spawn_ok fresh n c a port evs0 st).st.ctrl_socket =
      st.ctrl_socket := by
  by_cases hd : dictGet st.gr_radio_programs_conf n = none
  · rcases ho : (_add_program_to_repo n c st).out with e | path <;>
      simp [activateRegisterAndExec, hd, ho, exec_sock, add_repo_sock]
  · simp [activateRegisterAndExec, hd, exec_sock]

/-- Helper: `_init_proxy` can only change the control socket. -/
theorem init_proxy_state (n : Option String) (st : GnuRadioModule) :
    (_init_proxy n st).st.gr_state = st.gr_state ∧
    (_init_proxy n st).st.gr_exec_name = st.gr_exec_name ∧
    (_init_proxy n st).st.gr_process = st.gr_process ∧
    (_init_proxy n st).st.gr_radio_programs_conf = st.gr_radio_programs_conf ∧
    (_init_proxy n st).st.files = st.files ∧
    (_init_proxy n st).st.gr_process_io = st.gr_process_io := by
  rcases hs : st.ctrl_socket with _ | s
  · simp only [_init_proxy, hs]
    rcases hd : dictGet st.gr_radio_programs_conf n with _ | c <;> simp [hd]
  · simp [_init_proxy, hs]

/-- Helper: `set_active` preserves the channel invariant. -/
theorem sockInv_activate (cenv : CompileEnv) (spawn_ok : Bool) (fresh : Nat)
    (args : ActivateArgs) (st : GnuRadioModule)
    (ih : st.ctrl_socket ≠ none → st.gr_state = RadioProgramState.RUNNING ∨
      st.gr_state = RadioProgramState.PAUSED) :
    (set_active cenv spawn_ok fresh args st).st.ctrl_socket ≠ none →
      (set_active cenv spawn_ok fresh args st).st.gr_state =
        RadioProgramState.RUNNING ∨
      (set_active cenv spawn_ok fresh args st).st.gr_state =
        RadioProgramState.PAUSED := by
  by_cases h1 : st.gr_state = RadioProgramState.INACTIVE
  · have hsock : st.ctrl_socket = none := by
      by_cases hs : st.ctrl_socket = none
      · exact hs
      · rcases ih hs with hr | hr <;> rw [h1] at hr <;> cases hr
    by_cases h2 : args.program_type.getD "grc" = "grc"
    · rcases ho : (_convert_grc_to_python cenv args.program_name
        args.program_code st).out with e | py
      · simp [set_active, h1, h2, ho, convert_st_eq, hsock]
      · simp [set_active, h1, h2, ho, regexec_sock, convert_st_eq, hsock]
    · by_cases h3 : args.program_type.getD "grc" = "py"
      · simp [set_active, h1, h2, h3, regexec_sock, hsock]
      · simp [set_active, h1, h2, h3, hsock]
  · by_cases h2 : st.gr_state = RadioProgramState.PAUSED ∧
        st.gr_exec_name = args.program_name
    · simp [set_active, h1, h2]
    · simpa [set_active, h1, h2] using ih

/-- Helper: `_remove_program` never touches the control socket. -/
theorem remove_sock (n : Option String) (st : GnuRadioModule) :
    (_remove_program n st).st.ctrl_socket = st.ctrl_socket := by
  rcases hd : dictGet st.gr_radio_programs_conf n with _ | c
  · simp [_remove_program, hd]
  · simp only [_remove_program, hd]
    split_ifs <;> simp

/-- Helper: `_close_gr_process` only clears the control socket (the
stream-closing block is dead code, see `gr_process_io_is_dict`). -/
theorem close_gr_process_st (st : GnuRadioModule) :
    (_close_gr_process st).st = { st with ctrl_socket := none } := by
  rcases hio : st.gr_process_io with _ | io <;>
    rcases hp : st.gr_process with _ | p <;>
    simp [_close_gr_process, hio, hp, gr_process_io_is_dict]

/-- Helper: `set_inactive` preserves the channel invariant. -/
theorem sockInv_deactivate (name : Option String) (pause : Bool)
    (st : GnuRadioModule)
    (ih : st.ctrl_socket ≠ none → st.gr_state = RadioProgramState.RUNNING ∨
      st.gr_state = RadioProgramState.PAUSED) :
    (set_inactive name pause st).st.ctrl_socket ≠ none →
      (set_inactive name pause st).st.gr_state = RadioProgramState.RUNNING ∨
      (set_inactive name pause st).st.gr_state = RadioProgramState.PAUSED := by
  by_cases h1 : name = st.gr_exec_name
  · by_cases h2 : st.gr_state = RadioProgramState.RUNNING ∨
        st.gr_state = RadioProgramState.PAUSED
    · cases pause
      · simp [set_inactive, h1, h2, close_gr_process_st, remove_sock]
      · rcases hs : st.ctrl_socket with _ | s
        · simp [set_inactive, h1, h2, hs]
        · simp [set_inactive, h1, h2, hs]
    · simpa [set_inactive, h1, h2] using ih
  · simpa [set_inactive, h1] using ih

/-- Helper: `gnuradio_set_vars` preserves the channel invariant. -/
theorem sockInv_set_vars (renv : RemoteEnv) (ps : List (String × Int))
    (st : GnuRadioModule)
    (ih : st.ctrl_socket ≠ none → st.gr_state = RadioProgramState.RUNNING ∨
      st.gr_state = RadioProgramState.PAUSED) :
    (gnuradio_set_vars renv ps st).st.ctrl_socket ≠ none →
      (gnuradio_set_vars renv ps st).st.gr_state = RadioProgramState.RUNNING ∨
      (gnuradio_set_vars renv ps st).st.gr_state = RadioProgramState.PAUSED := by
  by_cases h : st.gr_state = RadioProgramState.RUNNING ∨
      st.gr_state = RadioProgramState.PAUSED
  · intro _
    simp only [gnuradio_set_vars, if_pos h]
    rw [(init_proxy_state st.gr_exec_name st).1]
    exact h
  · simpa [gnuradio_set_vars, h] using ih

/-- Helper: `gnuradio_get_vars` preserves the channel invariant. -/
theorem sockInv_get_vars (renv : RemoteEnv) (ks : List String)
    (st : GnuRadioModule)
    (ih : st.ctrl_socket ≠ none → st.gr_state = RadioProgramState.RUNNING ∨
      st.gr_state = RadioProgramState.PAUSED) :
    (gnuradio_get_vars renv ks st).st.ctrl_socket ≠ none →
      (gnuradio_get_vars renv ks st).st.gr_state = RadioProgramState.RUNNING ∨
      (gnuradio_get_vars renv ks st).st.gr_state = RadioProgramState.PAUSED := by
  by_cases h : st.gr_state = RadioProgramState.RUNNING ∨
      st.gr_state = RadioProgramState.PAUSED
  · intro _
    simp only [gnuradio_get_vars, if_pos h]
    rw [(init_proxy_state st.gr_exec_name st).1]
    exact h
  · simpa [gnuradio_get_vars, h] using ih

/-- C3 (amended): over every state reachable by public operations, the
control channel is non-null only while the state is `RUNNING` or
`PAUSED` (the process-handle half of the claim fails, see
`deactivate_keeps_process_handle`). -/
theorem reachable_channel_inv (st : GnuRadioModule) (hr : Reachable st) :
    st.ctrl_socket ≠ none →
      st.gr_state = RadioProgramState.RUNNING ∨
      st.gr_state = RadioProgramState.PAUSED := by
  induction hr with
  | init => intro hc; simp [initialModule] at hc
  | activate cenv spawn_ok fresh args hprev ih =>
      exact sockInv_activate _ _ _ _ _ ih
  | deactivate name pause hprev ih => exact sockInv_deactivate _ _ _ ih
  | setVars renv ps hprev ih => exact sockInv_set_vars _ _ _ ih
  | getVars renv ks hprev ih => exact sockInv_get_vars _ _ _ ih

/-- Witness for `reachable_channel_inv` at the reachable state `runXVars`,
whose control socket is set. -/
theorem reachable_channel_inv_witness :
    runXVars.gr_state = RadioProgramState.RUNNING ∨
    runXVars.gr_state = RadioProgramState.PAUSED :=
  reachable_channel_inv runXVars
    (Reachable.setVars renvFreq [(("freq"), 1)]
      (Reachable.activate cenvGood true 1 argsX Reachable.init))
    (by decide)

/-- Helper: dict assignment then lookup. -/
theorem lookupVar_dictSet (m : List (String × Int)) (k q : String) (v : Int) :
    lookupVar (dictSet m k v) q = if q = k then some v else lookupVar m q := by
  induction m with
  | nil =>
      by_cases h : q = k
      · subst h; simp [dictSet, lookupVar, List.find?]
      · have hb : (k == q) = false := by
          simp only [beq_eq_false_iff_ne]
          exact fun hc => h hc.symm
        simp [dictSet, lookupVar, List.find?, hb, h]
  | cons p rest ih =>
      obtain ⟨ks, vs⟩ := p
      by_cases h1 : ks = k
      · subst h1
        by_cases h2 : q = ks
        · subst h2; simp [dictSet, lookupVar, List.find?]
        · have hb : (ks == q) = false := by
            simp only [beq_eq_false_iff_ne]
            exact fun hc => h2 hc.symm
          simp [dictSet, lookupVar, List.find?, hb, h2]
      · by_cases h2 : q = ks
        · subst h2
          simp [dictSet, lookupVar, List.find?, h1]
        · have hb : (ks == q) = false := by
            simp only [beq_eq_false_iff_ne]
            exact fun hc => h2 hc.symm
          simp only [lookupVar] at ih
          simp [dictSet, lookupVar, List.find?, h1, hb, ih]

/-- Helper: an event `rpcSet k v` is produced by the bulk-set loop exactly
for the pairs of the batch whose remote call succeeds; failures are
logged and the loop always continues. -/
theorem setVarsLoop_mem (renv : RemoteEnv) (sock : Option Nat)
    (params : List (String × Int)) (k : String) (v : Int) :
    Event.rpcSet k v ∈ setVarsLoop renv sock params ↔
      ((k, v) ∈ params ∧ sock.isSome = true ∧ renv.set_ok k = true) := by
  induction params with
  | nil => simp [setVarsLoop]
  | cons p rest ih =>
      obtain ⟨pk, pv⟩ := p
      cases hcond : (sock.isSome && renv.set_ok pk) with
      | true =>
          obtain ⟨hs1, hs2⟩ := Bool.and_eq_true _ _ |>.mp hcond
          have hexp : setVarsLoop renv sock ((pk, pv) :: rest) =
              Event.rpcSet pk pv :: setVarsLoop renv sock rest := by
            simp [setVarsLoop, hcond]
          rw [hexp]
          simp only [List.mem_cons]
          constructor
          · rintro (he | hm)
            · obtain ⟨h1, h2⟩ : k = pk ∧ v = pv := by simpa using he
              subst h1; subst h2
              exact ⟨Or.inl rfl, hs1, hs2⟩
            · have h := ih.mp hm
              exact ⟨Or.inr h.1, h.2⟩
          · rintro ⟨he | hm, hs, hok⟩
            · cases he
              exact Or.inl rfl
            · exact Or.inr (ih.mpr ⟨hm, hs, hok⟩)
      | false =>
          have hexp : setVarsLoop renv sock ((pk, pv) :: rest) =
              Event.logError ("Unknown variable") :: setVarsLoop renv sock rest := by
            simp [setVarsLoop, hcond]
          rw [hexp]
          simp only [List.mem_cons]
          constructor
          · rintro (he | hm)
            · simp at he
            · have h := ih.mp hm
              exact ⟨Or.inr h.1, h.2⟩
          · rintro ⟨he | hm, hs, hok⟩
            · cases he
              simp [hs, hok] at hcond
            · exact Or.inr (ih.mpr ⟨hm, hs, hok⟩)

/-- Helper: the mapping built by the bulk-get loop holds exactly the
requested keys whose remote call succeeds, each at its remote value;
failing keys fall back to the incoming accumulator (omitted when it is
empty) and never abort the loop. -/
theorem getVarsLoop_lookup (renv : RemoteEnv) (sock : Option Nat)
    (keys : List String) (rv : List (String × Int)) (q : String) :
    lookupVar (getVarsLoop renv sock keys rv).fst q =
      if q ∈ keys ∧ sock.isSome = true ∧ (renv.get_val q).isSome = true
      then renv.get_val q else lookupVar rv q := by
  induction keys generalizing rv with
  | nil => simp [getVarsLoop]
  | cons k rest ih =>
      cases hcond : (sock.isSome && (renv.get_val k).isSome) with
      | true =>
          obtain ⟨hs1, hs2⟩ := Bool.and_eq_true _ _ |>.mp hcond
          have hexp : (getVarsLoop renv sock (k :: rest) rv).fst =
              (getVarsLoop renv sock rest
                (dictSet rv k ((renv.get_val k).getD 0))).fst := by
            simp [getVarsLoop, hcond]
          rw [hexp, ih, lookupVar_dictSet]
          by_cases hq : q = k
          · subst hq
            have hv : renv.get_val q = some ((renv.get_val q).getD 0) := by
              rcases ho : renv.get_val q with _ | v
              · rw [ho] at hs2; cases hs2
              · simp
            by_cases hr : q ∈ rest
            · simp [hr, hs1, hs2]
            · simp [hr, hs1, hs2]
              exact hv.symm
          · simp [hq, List.mem_cons]
      | false =>
          have hexp : (getVarsLoop renv sock (k :: rest) rv).fst =
              (getVarsLoop renv sock rest rv).fst := by
            simp [getVarsLoop, hcond]
          rw [hexp, ih]
          by_cases hq : q = k
          · subst hq
            by_cases hboth : sock.isSome = true ∧ (renv.get_val q).isSome = true
            · rw [hboth.1, hboth.2] at hcond; cases hcond
            · have h1 : ¬(q ∈ rest ∧ sock.isSome = true ∧
                  (renv.get_val q).isSome = true) :=
                fun hc => hboth ⟨hc.2.1, hc.2.2⟩
              have h2 : ¬(q ∈ q :: rest ∧ sock.isSome = true ∧
                  (renv.get_val q).isSome = true) :=
                fun hc => hboth ⟨hc.2.1, hc.2.2⟩
              rw [if_neg h1, if_neg h2]
          · simp [hq, List.mem_cons]

/-- Helper: `_init_proxy` itself produces no `rpcSet` event. -/
theorem init_proxy_no_rpcSet (n : Option String) (st : GnuRadioModule)
    (k : String) (v : Int) : Event.rpcSet k v ∉ (_init_proxy n st).evs := by
  rcases hs : st.ctrl_socket with _ | s
  · simp only [_init_proxy, hs]
    rcases hd : dictGet st.gr_radio_programs_conf n with _ | c <;> simp [hd]
  · simp [_init_proxy, hs]

/-- C8: from `RUNNING` or `PAUSED`, a remote failure on one key is caught
per key and aborts nothing: the bulk set returns normally, leaves the
session state (state, active name, process, registrations, artifacts)
unchanged, and issues exactly the remote sets of the succeeding pairs;
the bulk get returns a mapping holding exactly the requested keys whose
remote call succeeds, at their remote values, the failing keys omitted. -/
theorem vars_partial_batch (st : GnuRadioModule) (renv : RemoteEnv)
    (params : List (String × Int)) (keys : List String)
    (h : st.gr_state = RadioProgramState.RUNNING ∨
      st.gr_state = RadioProgramState.PAUSED) :
    (gnuradio_set_vars renv params st).out = Except.ok () ∧
    (gnuradio_set_vars renv params st).st.gr_state = st.gr_state ∧
    (gnuradio_set_vars renv params st).st.gr_exec_name = st.gr_exec_name ∧
    (gnuradio_set_vars renv params st).st.gr_process = st.gr_process ∧
    (gnuradio_set_vars renv params st).st.gr_radio_programs_conf =
      st.gr_radio_programs_conf ∧
    (gnuradio_set_vars renv params st).st.files = st.files ∧
    (∀ k v, Event.rpcSet k v ∈ (gnuradio_set_vars renv params st).evs ↔
      ((k, v) ∈ params ∧
        (_init_proxy st.gr_exec_name st).st.ctrl_socket.isSome = true ∧
        renv.set_ok k = true)) ∧
    (∃ m, (gnuradio_get_vars renv keys st).out = Except.ok (some m) ∧
      (gnuradio_get_vars renv keys st).st =
        (gnuradio_set_vars renv params st).st ∧
      ∀ q, lookupVar m q =
        if q ∈ keys ∧
            (_init_proxy st.gr_exec_name st).st.ctrl_socket.isSome = true ∧
            (renv.get_val q).isSome = true
        then renv.get_val q else none) := by
  have hset : gnuradio_set_vars renv params st =
      Res.mk (_init_proxy st.gr_exec_name st).st (Except.ok ())
        ((_init_proxy st.gr_exec_name st).evs ++
          setVarsLoop renv (_init_proxy st.gr_exec_name st).st.ctrl_socket
            params) := by
    simp [gnuradio_set_vars, h]
  have hget : gnuradio_get_vars renv keys st =
      Res.mk (_init_proxy st.gr_exec_name st).st
        (Except.ok (some (getVarsLoop renv
          (_init_proxy st.gr_exec_name st).st.ctrl_socket keys []).fst))
        ((_init_proxy st.gr_exec_name st).evs ++
          (getVarsLoop renv
            (_init_proxy st.gr_exec_name st).st.ctrl_socket keys []).snd ++
          [Event.logInfo ("Returning")]) := by
    simp [gnuradio_get_vars, h]
  obtain ⟨hp1, hp2, hp3, hp4, hp5, hp6⟩ := init_proxy_state st.gr_exec_name st
  rw [hset, hget]
  refine ⟨rfl, hp1, hp2, hp3, hp4, hp5, ?_, ?_⟩
  · intro k v
    rw [List.mem_append]
    constructor
    · rintro (hm | hm)
      · exact absurd hm (init_proxy_no_rpcSet _ _ _ _)
      · exact (setVarsLoop_mem _ _ _ _ _).mp hm
    · intro hc
      exact Or.inr ((setVarsLoop_mem _ _ _ _ _).mpr hc)
  · refine ⟨(getVarsLoop renv
      (_init_proxy st.gr_exec_name st).st.ctrl_socket keys []).fst, rfl, rfl, ?_⟩
    intro q
    rw [getVarsLoop_lookup]
    simp [lookupVar]

/-- Witness for `vars_partial_batch`: over `runX`, setting `freq` and the
unknown `bad` in one batch returns normally, issues the remote set for
`freq` and none for `bad`. -/
theorem vars_partial_batch_witness :
    (gnuradio_set_vars renvFreq [(("freq"), 1), (("bad"), 2)] runX).out =
      Except.ok () ∧
    Event.rpcSet ("freq") 1 ∈
      (gnuradio_set_vars renvFreq [(("freq"), 1), (("bad"), 2)] runX).evs ∧
    Event.rpcSet ("bad") 2 ∉
      (gnuradio_set_vars renvFreq [(("freq"), 1), (("bad"), 2)] runX).evs := by
  have h := vars_partial_batch runX renvFreq [(("freq"), 1), (("bad"), 2)]
    [("freq"), ("bad")] (by decide)
  refine ⟨h.1, ?_, ?_⟩
  · exact (h.2.2.2.2.2.2.1 ("freq") 1).mpr ⟨by decide, by decide, by decide⟩
  · intro hm
    have hc := (h.2.2.2.2.2.2.1 ("bad") 2).mp hm
    exact absurd hc.2.2 (by decide)
